import Mathlib

/-!
Shallow embedding of `apps/web/lib/apps/utils/AppUtils.ts` (app/credential
resolver helpers) and of the disposable-link booking-page loader
(`getServerSideProps`) found in the same source file, together with theorems
settling the frozen claims about them.

JavaScript semantics captured here:
  - `a || b` returns `a` when `a` is truthy, else `b`; `0`, `""`, `null`,
    `undefined` are falsy;
  - optional chaining `x?.f` yields `undefined` when `x` is `null`/`undefined`
    and otherwise accesses `f`; a plain `.f` access on `null`/`undefined`
    throws a TypeError;
  - `Array.prototype.find` returns the first element satisfying the predicate;
  - `String.prototype.includes` / `endsWith` are substring / suffix tests.
Absent/nullable JS values are modelled with `Option`; thrown errors with
`Except JsError`; the sequential Prisma fetches of the loader are recorded in
an explicit trace of `FetchOp`s so that "no further fetches" is stateable.
-/

/-- JS string truthiness: `undefined`/`null` and the empty string are falsy. -/
def strTruthy : Option String → Bool
  | none => false
  | some s => s ≠ ""

/-- JS number truthiness: `undefined`/`null` and `0` are falsy. -/
def intTruthy : Option Int → Bool
  | none => false
  | some n => n ≠ 0

/-- JS `a || b` on nullable strings: returns `a` when truthy, else `b`. -/
def jsOrStr (a b : Option String) : Option String :=
  if strTruthy a then a else b

/-- JS `String.prototype.includes(pat)`: substring containment. -/
def jsIncludes (s pat : String) : Bool := decide (pat.data <:+: s.data)

/-- JS `String.prototype.endsWith(pat)`: suffix test. -/
def jsEndsWith (s pat : String) : Bool := pat.data.isSuffixOf s.data

/-- Errors a JS runtime would throw in this code: a TypeError from a property
access on `undefined`/`null`, and the error thrown by the string-extraction
helper on a missing query parameter. -/
inductive JsError
  | typeError
  | missingQueryParam
deriving DecidableEq, Repr

/-- A static catalog entry (`App` from `@calcom/types/App`, as used here):
a `type` string key, a display `name`, and an optional `installed` flag
(the source reads it as `!!app.installed`). -/
structure App where
  type : String
  name : String
  installed : Option Bool
deriving DecidableEq, Repr

/-- `CredentialData`: the Prisma credential projection `{ id, type }` used by
`getApps`. TypeScript structural typing lets a runtime value carry extra
fields (notably the secret `key`), which is why the source applies
`_.pick(credential, ["id", "type"])`; the optional `key` models that. -/
structure CredentialData where
  id : Int
  type : String
  key : Option String
deriving DecidableEq, Repr

/-- Result of `_.pick(credential, ["id", "type"])`: only `id` and `type`. -/
structure CredentialProj where
  id : Int
  type : String
deriving DecidableEq, Repr

/-- `_.pick(credential, ["id", "type"])`. -/
def pickIdType (c : CredentialData) : CredentialProj :=
  { id := c.id, type := c.type }

/-- One entry of `getApps`' output: the spread catalog entry plus the
deprecated singular `credential` and the filtered `credentials` list. -/
structure AppMeta extends App where
  credential : Option CredentialProj
  credentials : List CredentialProj
deriving DecidableEq, Repr

/-- `getApps(userCredentials)` from AppUtils.ts. The module-level `ALL_APPS`
catalog (assembled from config files outside this source file) is passed as
the `allApps` parameter. For each catalog app: filter the user credentials to
those with equal `type`, pick only `{id, type}` from each, and attach the
list together with its first element (`credentials[0] || null`). -/
def getApps (allApps : List App) (userCredentials : List CredentialData) :
    List AppMeta :=
  allApps.map (fun app =>
    let credentials :=
      (userCredentials.filter (fun credential => credential.type == app.type)).map
        pickIdType
    let credential : Option CredentialProj := credentials.head?
    { toApp := app, credential := credential, credentials := credentials })

/-- `hasIntegration(apps, type)` from AppUtils.ts: `!!apps.find(...)`. -/
def hasIntegration (apps : List AppMeta) (type : String) : Bool :=
  (apps.find? (fun app =>
    app.type == type &&
    app.installed.getD false &&
    (type == "daily_video" ||
      type == "jitsi_video" ||
      type == "huddle01_video" ||
      decide (app.credentials.length > 0)))).isSome

/-- `hasIntegrationInstalled(type)` from AppUtils.ts. -/
def hasIntegrationInstalled (allApps : List App) (type : String) : Bool :=
  allApps.any (fun app => app.type == type && app.installed.getD false)

/-- `getAppName(name)` from AppUtils.ts: `ALL_APPS_MAP[name].name`. The map
(keyed lookup into the static catalog) is the `allAppsMap` parameter; on a
missing key, JS property access `.name` on `undefined` throws a TypeError. -/
def getAppName (allAppsMap : String → Option App) (name : String) :
    Except JsError String :=
  match allAppsMap name with
  | none => .error .typeError
  | some app => .ok app.name

/-- `getAppType(name)` from AppUtils.ts: reads `ALL_APPS_MAP[name].type`
(TypeError on a missing key), then tests `endsWith("_calendar")` first and
`endsWith("_payment")` second, defaulting to `"Unknown"`. -/
def getAppType (allAppsMap : String → Option App) (name : String) :
    Except JsError String :=
  match allAppsMap name with
  | none => .error .typeError
  | some app =>
    if jsEndsWith app.type "_calendar" then .ok "Calendar"
    else if jsEndsWith app.type "_payment" then .ok "Payment"
    else .ok "Unknown"

/-- A JS `Date` value; the loader only ever calls `.toString()` on it, so it
is modelled by the string that call produces. -/
structure JsDate where
  asString : String
deriving DecidableEq, Repr

/-- The user projection selected inside the disposable link's `users` select
(`id, avatar, name, username, hideBranding, plan, timeZone`). -/
structure LinkUser where
  id : Int
  avatar : Option String
  name : Option String
  username : Option String
  hideBranding : Bool
  plan : String
  timeZone : String
deriving DecidableEq, Repr

/-- The user projection selected inside `eventTypeSelect.users`. -/
structure EventUser where
  id : Int
  username : Option String
  name : Option String
  email : String
  bio : Option String
  avatar : Option String
  theme : Option String
deriving DecidableEq, Repr

/-- The event-type projection of `eventTypeSelect`. JSON-valued columns
(`locations`, `customInputs`, `metadata`) are opaque payloads here, modelled
as strings; `periodType` is its enum's name. -/
structure EventTypeRaw where
  id : Int
  title : String
  slug : String
  description : Option String
  length : Int
  locations : Option String
  customInputs : Option String
  periodType : String
  periodDays : Option Int
  periodStartDate : Option JsDate
  periodEndDate : Option JsDate
  metadata : Option String
  periodCountCalendarDays : Option Bool
  price : Int
  currency : String
  disableGuests : Bool
  userId : Option Int
  users : List EventUser
deriving DecidableEq, Repr

/-- The `prisma.disposableLink.findUnique` selection: joined `users`,
`userId`, joined `eventType` (nullable — the source itself guards
`if (!eventTypeRaw)` later), `availability` (opaque), `timeZone`,
`expired`. -/
structure DisposableLinkRecord where
  users : List LinkUser
  userId : Option Int
  eventType : Option EventTypeRaw
  availability : Option String
  timeZone : Option String
  expired : Bool
deriving DecidableEq, Repr

/-- The `prisma.user.findMany` selection of the loader. -/
structure User where
  id : Int
  username : Option String
  name : Option String
  email : String
  bio : Option String
  avatar : Option String
  theme : Option String
  brandColor : String
  darkBrandColor : String
  allowDynamicBooking : Option Bool
deriving DecidableEq, Repr

/-- The JSON `key` payload of a credential, as read by the loader: only its
`isWeb3Active` member matters (`(key as JSONObject).isWeb3Active || false`);
the member may be absent. -/
structure KeyPayload where
  isWeb3Active : Option Bool
deriving DecidableEq, Repr

/-- The `prisma.credential.findMany` selection of the loader:
`{ id, type, key }`, `key` nullable. -/
structure LoaderCredential where
  id : Int
  type : String
  key : Option KeyPayload
deriving DecidableEq, Repr

/-- An attendee of a booking (select `{ email, name }`). -/
structure Attendee where
  email : String
  name : String
deriving DecidableEq, Repr

/-- The booking projection of `getBooking`'s `prisma.booking.findFirst`
select: `{ description, attendees }`. -/
structure Booking where
  description : Option String
  attendees : List Attendee
deriving DecidableEq, Repr

/-- The request context fields the loader reads: `context.query.link`
(validated by `asStringOrThrow`), `context.query.slug` (cast, unvalidated),
`context.query.rescheduleUid` and `context.locale`. -/
structure Context where
  queryLink : Option String
  querySlug : String
  queryRescheduleUid : Option String
  locale : Option String
deriving DecidableEq, Repr

/-- The database as the loader observes it, one field per Prisma query shape:
the `(link, slug)`-keyed disposable-link lookup, `user.findMany` by id,
`credential.findMany` by user-id list, and `booking.findFirst` by uid. -/
structure DB where
  disposableLink : String → String → Option DisposableLinkRecord
  usersById : Int → List User
  credentialsByUserIds : List Int → List LoaderCredential
  bookingByUid : String → Option Booking

/-- Results of the external framework calls the loader passes through
untouched: `ssrInit(context)` + `ssr.dehydrate()` and
`getLocationLabels(t)` with `t` from `getTranslation`. -/
structure Env where
  trpcState : String
  locationLabels : String
deriving DecidableEq, Repr

/-- Modelled from the spec: `asStringOrThrow` from `@lib/asStringOrNull` is
not under `src/`; per the spec the string-extraction helper surfaces a
missing value as a thrown error ("fail fast if missing — surfaced as a
thrown error from the string-extraction helper"). -/
def asStringOrThrow (v : Option String) : Except JsError String :=
  match v with
  | none => .error .missingQueryParam
  | some s => .ok s

/-- The Prisma fetches the loader can issue, in source order. -/
inductive FetchOp
  | disposableLinkFindUnique
  | userFindMany
  | credentialFindMany
  | bookingFindFirst
deriving DecidableEq, Repr

/-- The reshaped event type placed into the props: `eventTypeRaw` spread,
`metadata` defaulted to the empty object, the derived `isWeb3Active` flag,
and the period dates stringified (`?.toString() ?? null`). -/
structure EventTypeObject where
  id : Int
  title : String
  slug : String
  description : Option String
  length : Int
  locations : Option String
  customInputs : Option String
  periodType : String
  periodDays : Option Int
  periodStartDate : Option String
  periodEndDate : Option String
  metadata : String
  periodCountCalendarDays : Option Bool
  price : Int
  currency : String
  disableGuests : Bool
  userId : Option Int
  users : List EventUser
  isWeb3Active : Bool
deriving DecidableEq, Repr

/-- The `profile` object assembled by the loader. -/
structure Profile where
  name : Option String
  image : Option String
  slug : Option String
  theme : Option String
  brandColor : String
  darkBrandColor : String
  eventName : Option String
deriving DecidableEq, Repr

/-- `DisposableBookingObject` from `@lib/types/booking`: `{ slug, link }`. -/
structure DisposableBookingObject where
  slug : String
  link : String
deriving DecidableEq, Repr

/-- The props object returned on the success path of the loader. -/
structure PageProps where
  locationLabels : String
  profile : Profile
  eventType : EventTypeObject
  booking : Option Booking
  trpcState : String
  isDynamicGroupBooking : Bool
  isDisposableBookingLink : Bool
  disposableBookingObject : DisposableBookingObject
deriving DecidableEq, Repr

/-- A `getServerSideProps` result: either `{ notFound: true }` or
`{ props: ... }`. -/
inductive LoaderOutcome
  | notFound
  | props : PageProps → LoaderOutcome
deriving DecidableEq, Repr

/-- The inner `getBooking` helper of the loader:
`prisma.booking.findFirst({ where: { uid: asStringOrThrow(context.query.rescheduleUid) } })`
with select `{ description, attendees: { email, name } }`. Note: the source
declares this function (and `let booking: Booking | null = null`) but never
invokes it. -/
def getBooking (db : DB) (context : Context) : Except JsError (Option Booking) :=
  match asStringOrThrow context.queryRescheduleUid with
  | .error e => .error e
  | .ok uid => .ok (db.bookingByUid uid)

/-- `getServerSideProps(context)` of the disposable-link booking page,
step by step in source order. The returned trace lists the Prisma fetches
actually issued on that run. -/
def getServerSideProps (env : Env) (db : DB) (context : Context) :
    Except JsError (LoaderOutcome × List FetchOp) :=
  match asStringOrThrow context.queryLink with
  | .error e => .error e
  | .ok link =>
    let slug := context.querySlug
    let disposableType := db.disposableLink link slug
    -- Handle expired links here
    let linkExpired : Bool :=
      match disposableType with
      | some r => r.expired
      | none => false
    if linkExpired then .ok (.notFound, [FetchOp.disposableLinkFindUnique])
    else
      -- const userId = disposableType?.userId || disposableType?.eventType.userId;
      -- `?.` short-circuits only on a missing record; `.userId` on a null
      -- eventType throws.
      let userIdStep : Except JsError (Option Int) :=
        match disposableType with
        | none => .ok none
        | some r =>
          if intTruthy r.userId then .ok r.userId
          else
            match r.eventType with
            | none => .error .typeError
            | some et => .ok et.userId
      match userIdStep with
      | .error e => .error e
      | .ok userId =>
        -- if (!userId) return { notFound: true };  (0 is falsy)
        match userId with
        | none => .ok (.notFound, [FetchOp.disposableLinkFindUnique])
        | some uid =>
          if uid = 0 then .ok (.notFound, [FetchOp.disposableLinkFindUnique])
          else
            let users := db.usersById uid
            match users with
            | [] =>
              .ok (.notFound,
                [FetchOp.disposableLinkFindUnique, FetchOp.userFindMany])
            | user :: restUsers =>
              -- const eventTypeRaw = disposableType?.eventType;
              match disposableType.bind (fun r => r.eventType) with
              | none =>
                .ok (.notFound,
                  [FetchOp.disposableLinkFindUnique, FetchOp.userFindMany])
              | some eventTypeRaw =>
                let credentials :=
                  db.credentialsByUserIds ((user :: restUsers).map (fun u => u.id))
                let web3Credentials :=
                  credentials.find? (fun credential =>
                    jsIncludes credential.type "_web3")
                let isWeb3Active : Bool :=
                  match web3Credentials with
                  | some wc =>
                    match wc.key with
                    | some k => k.isWeb3Active.getD false
                    | none => false
                  | none => false
                let eventType : EventTypeObject := {
                  id := eventTypeRaw.id
                  title := eventTypeRaw.title
                  slug := eventTypeRaw.slug
                  description := eventTypeRaw.description
                  length := eventTypeRaw.length
                  locations := eventTypeRaw.locations
                  customInputs := eventTypeRaw.customInputs
                  periodType := eventTypeRaw.periodType
                  periodDays := eventTypeRaw.periodDays
                  periodStartDate := eventTypeRaw.periodStartDate.map JsDate.asString
                  periodEndDate := eventTypeRaw.periodEndDate.map JsDate.asString
                  metadata := eventTypeRaw.metadata.getD "{}"
                  periodCountCalendarDays := eventTypeRaw.periodCountCalendarDays
                  price := eventTypeRaw.price
                  currency := eventTypeRaw.currency
                  disableGuests := eventTypeRaw.disableGuests
                  userId := eventTypeRaw.userId
                  users := eventTypeRaw.users
                  isWeb3Active := isWeb3Active }
                let disposableBookingObject : DisposableBookingObject :=
                  { slug := slug, link := link }
                -- let booking: Booking | null = null;  — never reassigned:
                -- `getBooking` is declared above but no call site exists.
                let booking : Option Booking := none
                let profile : Profile := {
                  name := jsOrStr user.name user.username
                  image := user.avatar
                  slug := user.username
                  theme := user.theme
                  brandColor := user.brandColor
                  darkBrandColor := user.darkBrandColor
                  eventName := none }
                .ok (.props {
                  locationLabels := env.locationLabels
                  profile := profile
                  eventType := eventType
                  booking := booking
                  trpcState := env.trpcState
                  isDynamicGroupBooking := false
                  isDisposableBookingLink := true
                  disposableBookingObject := disposableBookingObject },
                  [FetchOp.disposableLinkFindUnique, FetchOp.userFindMany,
                    FetchOp.credentialFindMany])

/-- Extracts the `booking` field of the props when the loader succeeded with
a props outcome. -/
def propsBooking :
    Except JsError (LoaderOutcome × List FetchOp) → Option (Option Booking)
  | .ok (.props p, _) => some p.booking
  | _ => none

/-- Extracts `eventType.isWeb3Active` from the props when the loader
succeeded with a props outcome. -/
def propsIsWeb3 :
    Except JsError (LoaderOutcome × List FetchOp) → Option Bool
  | .ok (.props p, _) => some p.eventType.isWeb3Active
  | _ => none

/-! ## Helper lemmas -/

theorem optBool_getD_false_eq_true (o : Option Bool) :
    o.getD false = true ↔ o = some true := by
  cases o <;> simp

/-- A small concrete catalog map (the shape of `ALL_APPS_MAP`) used to
instantiate lookup theorems. -/
def sampleCatalogMap : String → Option App := fun name =>
  if name = "google_calendar" then
    some { type := "google_calendar", name := "Google Calendar", installed := some true }
  else if name = "stripe_payment" then
    some { type := "stripe_payment", name := "Stripe", installed := some true }
  else if name = "zoom_video" then
    some { type := "zoom_video", name := "Zoom Video", installed := some true }
  else none

/-! ## Claims about the app/credential resolver -/

/-- Claim C3: for every catalog and every credential list, `getApps` returns
exactly one output entry per catalog app, in catalog order; each entry's
`credentials` field is exactly the input credentials whose type is
string-equal to that app's type, in input order, each projected to
`{id, type}`. -/
theorem getApps_entry_per_catalog_app (allApps : List App)
    (userCredentials : List CredentialData) :
    (getApps allApps userCredentials).length = allApps.length ∧
    ∀ (i : Nat) (hm : i < (getApps allApps userCredentials).length)
      (ha : i < allApps.length),
      ((getApps allApps userCredentials).get ⟨i, hm⟩).toApp = allApps.get ⟨i, ha⟩ ∧
      ((getApps allApps userCredentials).get ⟨i, hm⟩).credentials =
        (userCredentials.filter
          (fun credential => credential.type == (allApps.get ⟨i, ha⟩).type)).map
          pickIdType := by
  refine ⟨by simp [getApps], ?_⟩
  intro i hm ha
  constructor <;> simp [getApps, List.get_eq_getElem, List.getElem_map]

theorem getApps_entry_per_catalog_app_witness :
    ((getApps
        [{ type := "google_calendar", name := "Google Calendar", installed := some true }]
        [{ id := 7, type := "google_calendar", key := some "secret" },
         { id := 8, type := "zoom_video", key := none }]).get ⟨0, by decide⟩).credentials =
      [{ id := 7, type := "google_calendar" }] := by
  have h := (getApps_entry_per_catalog_app
    [{ type := "google_calendar", name := "Google Calendar", installed := some true }]
    [{ id := 7, type := "google_calendar", key := some "secret" },
     { id := 8, type := "zoom_video", key := none }]).2 0 (by decide) (by decide)
  rw [h.2]
  decide

/-- Claim C8: in every output entry of `getApps`, the deprecated singular
`credential` field is the first element of that entry's `credentials` list
when the list is non-empty, and `null` when the list is empty. -/
theorem getApps_credential_is_head (allApps : List App)
    (userCredentials : List CredentialData) :
    ∀ m ∈ getApps allApps userCredentials,
      (m.credentials = [] → m.credential = none) ∧
      (∀ x xs, m.credentials = x :: xs → m.credential = some x) := by
  have hhead : ∀ m ∈ getApps allApps userCredentials,
      m.credential = m.credentials.head? := by
    intro m hm
    simp only [getApps, List.mem_map] at hm
    obtain ⟨app, -, rfl⟩ := hm
    rfl
  intro m hm
  constructor
  · intro h
    rw [hhead m hm, h]
    rfl
  · intro x xs h
    rw [hhead m hm, h]
    rfl

/-- The sample catalog entry for Google Calendar. -/
def gcalApp : App :=
  { type := "google_calendar", name := "Google Calendar", installed := some true }

/-- A sample stored credential for Google Calendar. -/
def gcalCredential : CredentialData :=
  { id := 7, type := "google_calendar", key := some "secret" }

/-- The output entry `getApps` produces for `gcalApp` with `gcalCredential`
on file. -/
def gcalAppMeta : AppMeta :=
  { toApp := gcalApp
    credential := some { id := 7, type := "google_calendar" }
    credentials := [{ id := 7, type := "google_calendar" }] }

theorem getApps_credential_is_head_witness :
    gcalAppMeta.credential = some { id := 7, type := "google_calendar" } := by
  have h := getApps_credential_is_head [gcalApp] [gcalCredential] gcalAppMeta
    (by decide)
  exact h.2 { id := 7, type := "google_calendar" } [] rfl

/-- Claim C4: `hasIntegration(apps, type)` is true iff some app in `apps`
has exactly that type, is marked installed, and either the type is one of
the fixed zero-configuration allow-list (`daily_video`, `jitsi_video`,
`huddle01_video`) or that app's `credentials` list is non-empty. -/
theorem hasIntegration_iff (apps : List AppMeta) (type : String) :
    hasIntegration apps type = true ↔
      ∃ app ∈ apps, app.type = type ∧ app.installed = some true ∧
        (type = "daily_video" ∨ type = "jitsi_video" ∨ type = "huddle01_video" ∨
          app.credentials ≠ []) := by
  simp only [hasIntegration, List.find?_isSome, Bool.and_eq_true, Bool.or_eq_true,
    beq_iff_eq, decide_eq_true_eq, optBool_getD_false_eq_true, List.length_pos,
    and_assoc, or_assoc]

theorem hasIntegration_iff_witness :
    hasIntegration
      [{ toApp := { type := "daily_video", name := "Daily", installed := some true },
         credential := none, credentials := [] }] "daily_video" = true := by
  exact (hasIntegration_iff _ "daily_video").mpr
    ⟨{ toApp := { type := "daily_video", name := "Daily", installed := some true },
       credential := none, credentials := [] },
      by decide, rfl, rfl, Or.inl rfl⟩

/-- Claim C5: `getAppType` returns `"Calendar"` when the catalog entry's
type ends with `"_calendar"`, otherwise `"Payment"` when it ends with
`"_payment"`, otherwise `"Unknown"`, with the calendar suffix checked before
the payment suffix; in particular the categories of `"google_calendar"`,
`"stripe_payment"` and `"zoom_video"` are `"Calendar"`, `"Payment"` and
`"Unknown"`. -/
theorem getAppType_suffix_convention :
    (∀ (allAppsMap : String → Option App) (name : String) (app : App),
        allAppsMap name = some app →
        (jsEndsWith app.type "_calendar" = true →
          getAppType allAppsMap name = .ok "Calendar") ∧
        (jsEndsWith app.type "_calendar" = false →
          jsEndsWith app.type "_payment" = true →
          getAppType allAppsMap name = .ok "Payment") ∧
        (jsEndsWith app.type "_calendar" = false →
          jsEndsWith app.type "_payment" = false →
          getAppType allAppsMap name = .ok "Unknown")) ∧
    getAppType sampleCatalogMap "google_calendar" = .ok "Calendar" ∧
    getAppType sampleCatalogMap "stripe_payment" = .ok "Payment" ∧
    getAppType sampleCatalogMap "zoom_video" = .ok "Unknown" := by
  refine ⟨?_, by rfl, by rfl, by rfl⟩
  intro allAppsMap name app h
  refine ⟨?_, ?_, ?_⟩
  · intro h1
    simp [getAppType, h, h1]
  · intro h1 h2
    simp [getAppType, h, h1, h2]
  · intro h1 h2
    simp [getAppType, h, h1, h2]

theorem getAppType_suffix_convention_witness :
    getAppType sampleCatalogMap "google_calendar" = .ok "Calendar" := by
  exact (getAppType_suffix_convention.1 sampleCatalogMap "google_calendar"
    { type := "google_calendar", name := "Google Calendar", installed := some true }
    (by rfl)).1 (by decide)

/-- Claim C9: for every name that is not a key of the catalog map,
`getAppName` fails with a raised error (the TypeError of reading `.name` on
`undefined`) rather than returning a value; for every name that is a key,
it returns that entry's display name. -/
theorem getAppName_lookup (allAppsMap : String → Option App) (name : String) :
    (allAppsMap name = none → getAppName allAppsMap name = .error .typeError) ∧
    (∀ app, allAppsMap name = some app →
      getAppName allAppsMap name = .ok app.name) := by
  constructor
  · intro h
    simp [getAppName, h]
  · intro app h
    simp [getAppName, h]

theorem getAppName_lookup_witness :
    getAppName sampleCatalogMap "unknown_app" = .error .typeError ∧
    getAppName sampleCatalogMap "zoom_video" = .ok "Zoom Video" :=
  ⟨(getAppName_lookup sampleCatalogMap "unknown_app").1 (by rfl),
   (getAppName_lookup sampleCatalogMap "zoom_video").2
     { type := "zoom_video", name := "Zoom Video", installed := some true } (by rfl)⟩

/-! ## Loader reduction helper and sample data -/

/-- Reduction of the loader along its success path: a present `link` query
parameter, a found non-expired record with a truthy own `userId` and a
joined event type, and a non-empty user fetch yield the assembled props —
with `booking` always null — after exactly the three issued fetches. -/
theorem getServerSideProps_success (env : Env) (db : DB) (context : Context)
    (link : String) (r : DisposableLinkRecord) (et : EventTypeRaw) (uid : Int)
    (user : User) (restUsers : List User)
    (hl : context.queryLink = some link)
    (hrec : db.disposableLink link context.querySlug = some r)
    (hexp : r.expired = false)
    (huid : r.userId = some uid) (huid0 : uid ≠ 0)
    (het : r.eventType = some et)
    (husers : db.usersById uid = user :: restUsers) :
    getServerSideProps env db context = .ok (.props
      { locationLabels := env.locationLabels
        profile :=
          { name := jsOrStr user.name user.username
            image := user.avatar
            slug := user.username
            theme := user.theme
            brandColor := user.brandColor
            darkBrandColor := user.darkBrandColor
            eventName := none }
        eventType :=
          { id := et.id
            title := et.title
            slug := et.slug
            description := et.description
            length := et.length
            locations := et.locations
            customInputs := et.customInputs
            periodType := et.periodType
            periodDays := et.periodDays
            periodStartDate := et.periodStartDate.map JsDate.asString
            periodEndDate := et.periodEndDate.map JsDate.asString
            metadata := et.metadata.getD "{}"
            periodCountCalendarDays := et.periodCountCalendarDays
            price := et.price
            currency := et.currency
            disableGuests := et.disableGuests
            userId := et.userId
            users := et.users
            isWeb3Active :=
              match (db.credentialsByUserIds
                  ((user :: restUsers).map (fun u => u.id))).find?
                  (fun credential => jsIncludes credential.type "_web3") with
              | some wc =>
                match wc.key with
                | some k => k.isWeb3Active.getD false
                | none => false
              | none => false }
        booking := none
        trpcState := env.trpcState
        isDynamicGroupBooking := false
        isDisposableBookingLink := true
        disposableBookingObject := { slug := context.querySlug, link := link } },
      [FetchOp.disposableLinkFindUnique, FetchOp.userFindMany,
        FetchOp.credentialFindMany]) := by
  have h1 : intTruthy (some uid) = true := by simp [intTruthy, huid0]
  simp [getServerSideProps, asStringOrThrow, hl, hrec, hexp, h1, huid, huid0,
    het, husers]

/-- Fixed results of the external framework calls, for concrete runs. -/
def sampleEnv : Env := { trpcState := "trpc-state", locationLabels := "labels" }

/-- A sample event type owned by user 1. -/
def sampleEventType : EventTypeRaw :=
  { id := 10
    title := "Quick chat"
    slug := "quick-chat"
    description := none
    length := 30
    locations := none
    customInputs := none
    periodType := "UNLIMITED"
    periodDays := none
    periodStartDate := none
    periodEndDate := none
    metadata := none
    periodCountCalendarDays := none
    price := 0
    currency := "usd"
    disableGuests := false
    userId := some 1
    users := [] }

/-- A sample host user with id 1. -/
def sampleUser : User :=
  { id := 1
    username := some "alice"
    name := some "Alice"
    email := "alice@example.com"
    bio := none
    avatar := none
    theme := none
    brandColor := "#292929"
    darkBrandColor := "#fafafa"
    allowDynamicBooking := none }

/-! ## Claim C1 -/

/-- The prior booking stored under uid "resched-1". -/
def bookingC1 : Booking :=
  { description := some "prior booking"
    attendees := [{ email := "bob@example.com", name := "Bob" }] }

/-- A valid, non-expired link record for claim C1's run. -/
def recordC1 : DisposableLinkRecord :=
  { users := []
    userId := some 1
    eventType := some sampleEventType
    availability := none
    timeZone := none
    expired := false }

/-- Database for claim C1's run: the link resolves, user 1 exists, and a
booking with uid "resched-1" exists. -/
def dbC1 : DB :=
  { disposableLink := fun link slug =>
      if link = "lnk1" ∧ slug = "slug1" then some recordC1 else none
    usersById := fun i => if i = 1 then [sampleUser] else []
    credentialsByUserIds := fun _ => []
    bookingByUid := fun uid => if uid = "resched-1" then some bookingC1 else none }

/-- Request for claim C1's run: carries `rescheduleUid = "resched-1"`. -/
def ctxC1 : Context :=
  { queryLink := some "lnk1"
    querySlug := "slug1"
    queryRescheduleUid := some "resched-1"
    locale := none }

/-- Claim C1 (code bug): the request carries a reschedule identifier that
matches an existing booking — `getBooking` would return that booking's
`{description, attendees}` projection — yet the loader's returned props
carry `booking = null`: the source declares `getBooking` and a reassignable
`booking` binding but contains no call to the function. -/
theorem loader_booking_null_despite_rescheduleUid :
    ctxC1.queryRescheduleUid = some "resched-1" ∧
    getBooking dbC1 ctxC1 = .ok (some bookingC1) ∧
    propsBooking (getServerSideProps sampleEnv dbC1 ctxC1) = some none := by
  refine ⟨rfl, rfl, ?_⟩
  rfl

/-! ## Claim C2 -/

/-- A found, non-expired record with no own `userId` and no joined event
type. -/
def recordC2 : DisposableLinkRecord :=
  { users := []
    userId := none
    eventType := none
    availability := none
    timeZone := none
    expired := false }

/-- Like `sampleEventType` but with no owning `userId`. -/
def eventTypeNoUser : EventTypeRaw :=
  { id := 11
    title := "Quick chat"
    slug := "quick-chat"
    description := none
    length := 30
    locations := none
    customInputs := none
    periodType := "UNLIMITED"
    periodDays := none
    periodStartDate := none
    periodEndDate := none
    metadata := none
    periodCountCalendarDays := none
    price := 0
    currency := "usd"
    disableGuests := false
    userId := none
    users := [] }

/-- A found, non-expired record with no own `userId` whose joined event type
is present but also has no `userId`. -/
def recordC2b : DisposableLinkRecord :=
  { users := []
    userId := none
    eventType := some eventTypeNoUser
    availability := none
    timeZone := none
    expired := false }

/-- Database for claim C2's first run: the record has no event type. -/
def dbC2 : DB :=
  { disposableLink := fun link slug =>
      if link = "lnk2" ∧ slug = "slug2" then some recordC2 else none
    usersById := fun _ => []
    credentialsByUserIds := fun _ => []
    bookingByUid := fun _ => none }

/-- Database for claim C2's second run: the event type is present but
yields no user id either. -/
def dbC2b : DB :=
  { disposableLink := fun link slug =>
      if link = "lnk2" ∧ slug = "slug2" then some recordC2b else none
    usersById := fun _ => []
    credentialsByUserIds := fun _ => []
    bookingByUid := fun _ => none }

/-- Request for claim C2's runs. -/
def ctxC2 : Context :=
  { queryLink := some "lnk2"
    querySlug := "slug2"
    queryRescheduleUid := none
    locale := none }

/-- Claim C2 (code bug): on a found, non-expired record whose own `userId`
is absent, the loader returns `{notFound: true}` when the joined event type
is present (second conjunct) — but throws a TypeError when the event type is
itself absent (first conjunct): in `disposableType?.userId ||
disposableType?.eventType.userId` the optional chaining guards only the
record, so `.userId` is read off a null `eventType`. -/
theorem loader_typeError_on_absent_eventType :
    getServerSideProps sampleEnv dbC2 ctxC2 = .error .typeError ∧
    getServerSideProps sampleEnv dbC2b ctxC2 =
      .ok (.notFound, [FetchOp.disposableLinkFindUnique]) :=
  ⟨rfl, rfl⟩

/-! ## Claim C6 -/

/-- Claim C6: if the disposable-link record is absent, or present with its
`expired` flag true, the loader returns `{notFound: true}` having issued
only the disposable-link lookup — no subsequent user, credential, or
booking fetch. -/
theorem loader_notFound_absent_or_expired (env : Env) (db : DB)
    (context : Context) (link : String)
    (hl : context.queryLink = some link)
    (h : db.disposableLink link context.querySlug = none ∨
      ∃ r, db.disposableLink link context.querySlug = some r ∧ r.expired = true) :
    getServerSideProps env db context =
      .ok (.notFound, [FetchOp.disposableLinkFindUnique]) := by
  rcases h with h | ⟨r, hr, hexp⟩
  · simp [getServerSideProps, asStringOrThrow, hl, h]
  · simp [getServerSideProps, asStringOrThrow, hl, hr, hexp]

/-- An expired link record. -/
def recordC6 : DisposableLinkRecord :=
  { users := []
    userId := some 1
    eventType := some sampleEventType
    availability := none
    timeZone := none
    expired := true }

/-- Database for claim C6's witness run: the `(link, slug)` pair resolves to
an expired record. -/
def dbC6 : DB :=
  { disposableLink := fun link slug =>
      if link = "lnk6" ∧ slug = "slug6" then some recordC6 else none
    usersById := fun _ => []
    credentialsByUserIds := fun _ => []
    bookingByUid := fun _ => none }

/-- Request for claim C6's witness run. -/
def ctxC6 : Context :=
  { queryLink := some "lnk6"
    querySlug := "slug6"
    queryRescheduleUid := none
    locale := none }

theorem loader_notFound_absent_or_expired_witness :
    getServerSideProps sampleEnv dbC6 ctxC6 =
      .ok (.notFound, [FetchOp.disposableLinkFindUnique]) := by
  exact loader_notFound_absent_or_expired sampleEnv dbC6 ctxC6 "lnk6" rfl
    (Or.inr ⟨recordC6, by decide, rfl⟩)

/-! ## Claims C7 and C10 -/

/-- A valid, non-expired link record owned by user 1, for the web3-flag
runs. -/
def recordC7 : DisposableLinkRecord :=
  { users := []
    userId := some 1
    eventType := some sampleEventType
    availability := none
    timeZone := none
    expired := false }

/-- Credentials refuting claim C7 as stated: the first "_web3" credential
has a null key, a later "_web3" credential has `isWeb3Active: true`. -/
def credsC7ce : List LoaderCredential :=
  [{ id := 21, type := "a_web3", key := none },
   { id := 22, type := "b_web3", key := some { isWeb3Active := some true } }]

/-- Request for the web3-flag runs keyed `("lnk7", "slug7")`. -/
def ctxC7 : Context :=
  { queryLink := some "lnk7"
    querySlug := "slug7"
    queryRescheduleUid := none
    locale := none }

/-- Database for claim C7's counterexample run: user 1 holds `credsC7ce`. -/
def dbC7ce : DB :=
  { disposableLink := fun link slug =>
      if link = "lnk7" ∧ slug = "slug7" then some recordC7 else none
    usersById := fun i => if i = 1 then [sampleUser] else []
    credentialsByUserIds := fun ids => if ids = [1] then credsC7ce else []
    bookingByUid := fun _ => none }

/-- Claim C7 counterexample: the fetched credentials do contain a credential
whose type contains "_web3" and whose key payload has `isWeb3Active: true`
(the second one), yet the returned props carry `isWeb3Active = false`: the
source derives the flag from the first "_web3" credential only, and that
one's key is null. -/
theorem loader_isWeb3Active_counterexample :
    (credsC7ce.any fun credential =>
      jsIncludes credential.type "_web3" &&
        (match credential.key with
         | some k => k.isWeb3Active.getD false
         | none => false)) = true ∧
    dbC7ce.credentialsByUserIds [1] = credsC7ce ∧
    propsIsWeb3 (getServerSideProps sampleEnv dbC7ce ctxC7) = some false := by
  refine ⟨by decide, rfl, ?_⟩
  rfl

/-- Claim C7 (amended): on the loader's success path, `eventType.isWeb3Active`
is true when the first fetched credential whose type contains "_web3" has a
key payload whose `isWeb3Active` is true, and false when no credential's type
contains "_web3" or that first matching credential's key payload is absent. -/
theorem loader_isWeb3Active_first_web3 (env : Env) (db : DB)
    (context : Context) (link : String) (r : DisposableLinkRecord)
    (et : EventTypeRaw) (uid : Int) (user : User) (restUsers : List User)
    (creds : List LoaderCredential)
    (hl : context.queryLink = some link)
    (hrec : db.disposableLink link context.querySlug = some r)
    (hexp : r.expired = false)
    (huid : r.userId = some uid) (huid0 : uid ≠ 0)
    (het : r.eventType = some et)
    (husers : db.usersById uid = user :: restUsers)
    (hcreds : db.credentialsByUserIds ((user :: restUsers).map (fun u => u.id)) =
      creds) :
    ((∃ c k,
        creds.find? (fun credential => jsIncludes credential.type "_web3") =
          some c ∧
        c.key = some k ∧ k.isWeb3Active = some true) →
      propsIsWeb3 (getServerSideProps env db context) = some true) ∧
    ((creds.find? (fun credential => jsIncludes credential.type "_web3") = none ∨
      ∃ c,
        creds.find? (fun credential => jsIncludes credential.type "_web3") =
          some c ∧
        c.key = none) →
      propsIsWeb3 (getServerSideProps env db context) = some false) := by
  have hred := getServerSideProps_success env db context link r et uid user
    restUsers hl hrec hexp huid huid0 het husers
  rw [hred, hcreds]
  constructor
  · rintro ⟨c, k, hfind, hkey, hact⟩
    simp only [propsIsWeb3]
    rw [hfind]
    simp [hkey, hact]
  · rintro (hfind | ⟨c, hfind, hkey⟩)
    · simp only [propsIsWeb3]
      rw [hfind]
    · simp only [propsIsWeb3]
      rw [hfind]
      simp [hkey]

/-- A single "_web3" credential with an active key payload. -/
def credsC7w : List LoaderCredential :=
  [{ id := 23, type := "acme_web3", key := some { isWeb3Active := some true } }]

/-- Database for claim C7's witness run: user 1 holds `credsC7w`. -/
def dbC7w : DB :=
  { disposableLink := fun link slug =>
      if link = "lnk7" ∧ slug = "slug7" then some recordC7 else none
    usersById := fun i => if i = 1 then [sampleUser] else []
    credentialsByUserIds := fun ids => if ids = [1] then credsC7w else []
    bookingByUid := fun _ => none }

theorem loader_isWeb3Active_first_web3_witness :
    propsIsWeb3 (getServerSideProps sampleEnv dbC7w ctxC7) = some true := by
  exact (loader_isWeb3Active_first_web3 sampleEnv dbC7w ctxC7 "lnk7" recordC7
    sampleEventType 1 sampleUser [] credsC7w rfl (by decide) rfl rfl (by decide)
    rfl (by decide) (by decide)).1
    ⟨{ id := 23, type := "acme_web3", key := some { isWeb3Active := some true } },
      { isWeb3Active := some true }, by decide, rfl, rfl⟩

/-- Credentials for claim C10's witness run: the first "_web3" credential
carries `isWeb3Active: false`, a later one carries `isWeb3Active: true`. -/
def credsC10 : List LoaderCredential :=
  [{ id := 31, type := "x_web3", key := some { isWeb3Active := some false } },
   { id := 32, type := "y_web3", key := some { isWeb3Active := some true } }]

/-- A valid, non-expired link record owned by user 1, for claim C10's run. -/
def recordC10 : DisposableLinkRecord :=
  { users := []
    userId := some 1
    eventType := some sampleEventType
    availability := none
    timeZone := none
    expired := false }

/-- Database for claim C10's witness run: user 1 holds `credsC10`. -/
def dbC10 : DB :=
  { disposableLink := fun link slug =>
      if link = "lnk10" ∧ slug = "slug10" then some recordC10 else none
    usersById := fun i => if i = 1 then [sampleUser] else []
    credentialsByUserIds := fun ids => if ids = [1] then credsC10 else []
    bookingByUid := fun _ => none }

/-- Request for claim C10's witness run. -/
def ctxC10 : Context :=
  { queryLink := some "lnk10"
    querySlug := "slug10"
    queryRescheduleUid := none
    locale := none }

/-- Claim C10: the web3-active flag is derived from at most one credential —
the first, in fetched order, whose type contains "_web3". If that first
matching credential's key is absent or its `isWeb3Active` is falsy, the flag
is false, irrespective of any later credential (no hypothesis below excludes
a later "_web3" credential with `isWeb3Active: true`; the witness run has
one). -/
theorem loader_web3_first_match_only (env : Env) (db : DB)
    (context : Context) (link : String) (r : DisposableLinkRecord)
    (et : EventTypeRaw) (uid : Int) (user : User) (restUsers : List User)
    (creds : List LoaderCredential) (c : LoaderCredential)
    (hl : context.queryLink = some link)
    (hrec : db.disposableLink link context.querySlug = some r)
    (hexp : r.expired = false)
    (huid : r.userId = some uid) (huid0 : uid ≠ 0)
    (het : r.eventType = some et)
    (husers : db.usersById uid = user :: restUsers)
    (hcreds : db.credentialsByUserIds ((user :: restUsers).map (fun u => u.id)) =
      creds)
    (hfind : creds.find? (fun credential => jsIncludes credential.type "_web3") =
      some c)
    (hkey : c.key = none ∨
      ∃ k, c.key = some k ∧ k.isWeb3Active.getD false = false) :
    propsIsWeb3 (getServerSideProps env db context) = some false := by
  have hred := getServerSideProps_success env db context link r et uid user
    restUsers hl hrec hexp huid huid0 het husers
  rw [hred, hcreds]
  simp only [propsIsWeb3]
  rw [hfind]
  rcases hkey with hkey | ⟨k, hkey, hact⟩
  · simp [hkey]
  · simp [hkey, hact]

theorem loader_web3_first_match_only_witness :
    propsIsWeb3 (getServerSideProps sampleEnv dbC10 ctxC10) = some false := by
  exact loader_web3_first_match_only sampleEnv dbC10 ctxC10 "lnk10" recordC10
    sampleEventType 1 sampleUser [] credsC10
    { id := 31, type := "x_web3", key := some { isWeb3Active := some false } }
    rfl (by decide) rfl rfl (by decide) rfl (by decide) (by decide) (by decide)
    (Or.inr ⟨{ isWeb3Active := some false }, rfl, rfl⟩)
